/-
Verification of the lpmd multi-band compressor core and streaming harness.

Shallow embedding of src/src/core/multiband_compressor.py (MultiBandCompressor)
and src/src/core/lpmd_audio_features.py (LPMDAudioEngine).  Torch float tensors
are modelled as real-valued functions; torch library primitives (hann_window,
rfft, irfft, clamp, where, mean, angle) are modelled by their mathematical
definitions; Python's queue.Queue by its documented blocking semantics; Python
exceptions by Except.  Scalar configuration arithmetic that Python performs on
exact machinery (int(), comparisons on literals) is carried out in ℚ/ℤ/ℕ so it
stays executable; the signal path itself lives in ℝ.
-/
import Mathlib

set_option maxHeartbeats 1000000

/-- Python exceptions that the embedded code can raise. -/
inductive PyError where
  | assertionError : PyError
  | zeroDivisionError : PyError
  | processorError : PyError

/-- Python `int(q)` on an exact rational: truncation toward zero. -/
def int_trunc (q : ℚ) : ℤ := if 0 ≤ q then ⌊q⌋ else ⌈q⌉

/-- multiband_compressor.py lines 48-49: `attack_samples = int(attack_ms * sample_rate / 1000)`
(and the same for release). -/
def time_ms_to_samples (ms sr : ℚ) : ℤ := int_trunc (ms * sr / 1000)

/-- multiband_compressor.py lines 51-52:
`1.0 - torch.exp(torch.tensor(-1.0 / samples)) if samples > 0 else 1.0`. -/
noncomputable def ar_coeff (samples : ℤ) : ℝ :=
  if 0 < samples then 1 - Real.exp (-1 / (samples : ℝ)) else 1

/-- multiband_compressor.py lines 60-62, `_db_to_linear`: `torch.pow(10.0, db / 20.0)`. -/
noncomputable def db_to_linear (db : ℝ) : ℝ := (10 : ℝ) ^ (db / 20)

/-- multiband_compressor.py lines 64-66, `_linear_to_db`:
`20.0 * torch.log10(torch.clamp(linear, min=1e-8))`. -/
noncomputable def linear_to_db (x : ℝ) : ℝ := 20 * Real.logb 10 (max x (1 / 100000000))

/-- multiband_compressor.py lines 98-113, `_apply_attack_release`, per
(batch, channel, bin) slot.  Returns (smoothed gain reduction in dB, new envelope value).
`target = 10^(-red/20)`; attack coefficient when the target is below the current
envelope, release coefficient otherwise; one-pole update; output through
`_linear_to_db` (which floors at 1e-8). -/
noncomputable def apply_attack_release (ac rc red env : ℝ) : ℝ × ℝ :=
  let target := db_to_linear (-red)
  let c := if target < env then ac else rc
  let new_env := env + c * (target - env)
  (-(linear_to_db new_env), new_env)

/-- Scalar data captured by `MultiBandCompressor.__init__` (multiband_compressor.py
lines 14-58).  Per-bin parameter tensors start as `torch.full((num_bands,), v)`, so
at construction they are described by their uniform scalar defaults. -/
structure MBCInitData where
  sample_rate : ℚ
  fft_size : ℕ
  hop_size : ℕ
  num_bands : ℕ
  threshold_db : ℚ
  ratio : ℚ
  makeup_gain_db : ℚ
  knee_width_db : ℚ
  attack_samples : ℤ
  release_samples : ℤ

/-- multiband_compressor.py lines 14-58, `MultiBandCompressor.__init__`.
The only guard in the source is `assert fft_size == 4096` (line 31); the only other
way construction can fail is the `1.0/sample_rate` passed to `torch.fft.rfftfreq`
(line 58), which raises ZeroDivisionError exactly when `sample_rate == 0`.
No check on the sign of the sample rate and no check relating hop_size to
fft_size exists in the source. -/
def multiband_compressor_init (sr : ℚ) (fft hop : ℕ)
    (thr rat att rel mk kn : ℚ) : Except PyError MBCInitData :=
  if fft ≠ 4096 then Except.error PyError.assertionError
  else if sr = 0 then Except.error PyError.zeroDivisionError
  else Except.ok
    { sample_rate := sr
      fft_size := fft
      hop_size := hop
      num_bands := fft / 2 + 1
      threshold_db := thr
      ratio := rat
      makeup_gain_db := mk
      knee_width_db := kn
      attack_samples := time_ms_to_samples att sr
      release_samples := time_ms_to_samples rel sr }

/-- Did an embedded Python call complete without raising? -/
def except_ok {ε α : Type} (e : Except ε α) : Bool :=
  match e with
  | Except.ok _ => true
  | Except.error _ => false

/-- multiband_compressor.py line 58: `torch.fft.rfftfreq(fft_size, 1.0/sample_rate)[i]`
with `fft_size = 4096`, i.e. the center frequency `i * sample_rate / 4096` of bin `i`. -/
def freq_bins (sr : ℚ) (i : ℕ) : ℚ := i * sr / 4096

/-- multiband_compressor.py lines 271-283, `get_frequency_range`.  `len(freq_bins)` is
`4096/2 + 1 = 2049`.  Low edge: 0 for bin 0, otherwise the CENTER frequency of bin
`idx - 1`; high edge: `sample_rate/2` for `idx ≥ 2048`, otherwise the CENTER
frequency of bin `idx + 1`. -/
def get_frequency_range (sr : ℚ) (idx : ℕ) : ℚ × ℚ :=
  (if idx = 0 then 0 else freq_bins sr (idx - 1),
   if 2049 - 1 ≤ idx then sr / 2 else freq_bins sr (idx + 1))

/-- Claim-side reference for C9 (spec section 4.4): boundaries are MIDPOINTS between
adjacent bin center frequencies, with bin 0's low edge at 0 and the last bin's high
edge at Nyquist. -/
def spec_freq_range (sr : ℚ) (idx : ℕ) : ℚ × ℚ :=
  (if idx = 0 then 0 else (freq_bins sr (idx - 1) + freq_bins sr idx) / 2,
   if 2048 ≤ idx then sr / 2 else (freq_bins sr idx + freq_bins sr (idx + 1)) / 2)

/-- Claim-side reference for C5 (spec section 4.3): coefficient `1 - exp(-1/samples)`
with the exact (un-truncated) sample count `time_ms * sample_rate / 1000`, and
coefficient 1 for a zero time constant. -/
noncomputable def spec_coeff (ms sr : ℚ) : ℝ :=
  if ms = 0 then 1 else 1 - Real.exp (-1 / ((ms * sr / 1000 : ℚ) : ℝ))

/-- C6 counterexample: the claim says a non-positive sample rate or a hop size
exceeding the analysis size is rejected at construction time, but constructing with
sample_rate = -44100 AND hop_size = 8192 > 4096 succeeds: the source only asserts
`fft_size == 4096`. -/
theorem C6_counterexample :
    except_ok (multiband_compressor_init (-44100) 4096 8192 (-20) 4 10 100 0 0) = true := by
  rfl

/-- C6 (corrected): construction succeeds iff the analysis size is the single
supported value 4096 and the sample rate is nonzero (the latter failing only
incidentally, as a ZeroDivisionError from `1.0/sample_rate`); negative sample
rates and hop sizes exceeding the analysis size are accepted. -/
theorem C6_init_validation (sr : ℚ) (fft hop : ℕ) (thr rat att rel mk kn : ℚ) :
    except_ok (multiband_compressor_init sr fft hop thr rat att rel mk kn) = true ↔
      (fft = 4096 ∧ sr ≠ 0) := by
  unfold multiband_compressor_init except_ok
  by_cases h1 : fft = 4096
  · by_cases h2 : sr = 0
    · simp [h1, h2]
    · simp [h1, h2]
  · simp [h1]

/-- C9 counterexample: for bin 1 at sample rate 44100 the code's low edge is the
center frequency of bin 0 (namely 0), not the midpoint between the centers of
bins 0 and 1 (namely 44100/8192), so `get_frequency_range` differs from the
spec's midpoint description at a valid bin index. -/
theorem C9_counterexample :
    get_frequency_range 44100 1 ≠ spec_freq_range 44100 1 := by
  intro h
  have h1 := congrArg Prod.fst h
  norm_num [get_frequency_range, spec_freq_range, freq_bins] at h1

/-- C9 (corrected): for every valid bin index, the low boundary is 0 for bin 0 and
otherwise the CENTER frequency of the previous bin, and the high boundary is
Nyquist (sample_rate/2) for the last bin and otherwise the CENTER frequency of the
next bin — adjacent bin centers, not midpoints between centers. -/
theorem C9_frequency_range (sr : ℚ) (idx : ℕ) (h : idx ≤ 2048) :
    (get_frequency_range sr idx).1 = (if idx = 0 then 0 else freq_bins sr (idx - 1)) ∧
    (get_frequency_range sr idx).2 = (if idx = 2048 then sr / 2 else freq_bins sr (idx + 1)) ∧
    (get_frequency_range sr 0).1 = 0 ∧
    (get_frequency_range sr 2048).2 = sr / 2 := by
  refine ⟨rfl, ?_, rfl, by norm_num [get_frequency_range]⟩
  unfold get_frequency_range
  rcases Nat.lt_or_ge idx 2048 with hlt | hge
  · have hne : idx ≠ 2048 := Nat.ne_of_lt hlt
    have hnle : ¬ 2049 - 1 ≤ idx := by omega
    simp [hne, hnle]
  · have heq : idx = 2048 := le_antisymm h hge
    simp [heq]

/-- C9 witness: the corrected statement applied at sample rate 44100, bin 7. -/
theorem C9_frequency_range_witness :
    (7 : ℕ) ≤ 2048 ∧
    ((get_frequency_range 44100 7).1 = (if (7:ℕ) = 0 then 0 else freq_bins 44100 (7 - 1)) ∧
     (get_frequency_range 44100 7).2 = (if (7:ℕ) = 2048 then 44100 / 2 else freq_bins 44100 (7 + 1)) ∧
     (get_frequency_range 44100 0).1 = 0 ∧
     (get_frequency_range 44100 2048).2 = 44100 / 2) :=
  ⟨by norm_num, C9_frequency_range 44100 7 (by norm_num)⟩

/-- C5 counterexample: the claim says each coefficient equals
`1 - exp(-1/samples)` with `samples = time_ms * sample_rate / 1000` (coefficient 1
only for a zero time constant).  With time_ms = 1/2 and sample_rate = 1000 the
exact sample count is 1/2, so the claimed coefficient is `1 - exp(-2) ≠ 1`, but the
code truncates `int(0.5) = 0` and lands in the `else 1.0` branch, yielding 1. -/
theorem C5_counterexample :
    ar_coeff (time_ms_to_samples (1/2) 1000) = 1 ∧ spec_coeff (1/2) 1000 ≠ 1 := by
  constructor
  · have h : time_ms_to_samples (1/2) 1000 = 0 := by
      unfold time_ms_to_samples int_trunc
      norm_num
    rw [h]
    simp [ar_coeff]
  · have h2 : ((1:ℚ)/2 * 1000 / 1000) = 1/2 := by norm_num
    unfold spec_coeff
    rw [if_neg (by norm_num), h2]
    intro heq
    have hz : Real.exp (-1 / (((1:ℚ)/2 : ℚ) : ℝ)) = 0 := by linarith
    exact (Real.exp_pos _).ne' hz

/-- C5 (corrected): the per-slot envelope follower computes exactly
`target = 10^(-red/20)`, picks the attack coefficient when the target is below the
current state and the release coefficient otherwise, updates
`new = state + coeff * (target - state)`, and outputs `-20*log10(max(new, 1e-8))`
(the 1e-8 floor of `_linear_to_db` applies); each coefficient is
`1 - exp(-1/samples)` with `samples = int(time_ms * sample_rate / 1000)` TRUNCATED
to an integer, the coefficient being 1 whenever that truncation is ≤ 0 (any time
constant shorter than one sample period, not only zero). -/
theorem C5_envelope_follower (ac rc red env : ℝ) (ms sr : ℚ) :
    apply_attack_release ac rc red env =
      (-(20 * Real.logb 10 (max (env + (if (10:ℝ) ^ (-red/20) < env then ac else rc) *
          ((10:ℝ) ^ (-red/20) - env)) (1 / 100000000))),
       env + (if (10:ℝ) ^ (-red/20) < env then ac else rc) * ((10:ℝ) ^ (-red/20) - env)) ∧
    ar_coeff (time_ms_to_samples ms sr) =
      (if 0 < int_trunc (ms * sr / 1000) then
        1 - Real.exp (-1 / ((int_trunc (ms * sr / 1000) : ℤ) : ℝ)) else 1) :=
  ⟨rfl, rfl⟩

/-- multiband_compressor.py lines 79-83: the hard-knee `torch.where` expression,
0 below threshold and `(level - threshold) * (1 - 1/ratio)` otherwise. -/
noncomputable def hard_knee (lvl thr rat : ℝ) : ℝ :=
  if lvl < thr then 0 else (lvl - thr) * (1 - 1 / rat)

/-- multiband_compressor.py lines 68-96, `_compute_gain_reduction`, at one
(batch, channel) row: `lvl`, `thr`, `rat`, `kw` are the bin-indexed magnitude
levels (dB) and parameter tensors, `m` the number of bins over which
`knee_width_db.mean()` is taken.  The soft-knee blend is selected GLOBALLY by
`knee_width_db.mean() > 0`, then applied per bin inside the per-bin knee window. -/
noncomputable def compute_gain_reduction (m : ℕ) (lvl thr rat kw : ℕ → ℝ) (i : ℕ) : ℝ :=
  let knee_start := thr i - kw i / 2
  let knee_end := thr i + kw i / 2
  let over := lvl i - thr i
  if 0 < (∑ j ∈ Finset.range m, kw j) / (m : ℝ) then
    if knee_start ≤ lvl i ∧ lvl i ≤ knee_end then
      let t := min (max ((lvl i - knee_start) / kw i) 0) 1
      t * t * over * (1 - 1 / rat i)
    else hard_knee (lvl i) (thr i) (rat i)
  else hard_knee (lvl i) (thr i) (rat i)

/-- Claim-side reference for C4 (spec section 4.2): per-bin gain-reduction curve —
quadratic knee blend inside the window of a bin whose own knee width is positive,
hard knee everywhere else (in particular for every bin with zero knee width). -/
noncomputable def spec_gain_reduction (lvl thr rat kw : ℝ) : ℝ :=
  if 0 < kw ∧ (thr - kw / 2 ≤ lvl ∧ lvl ≤ thr + kw / 2) then
    (min (max ((lvl - (thr - kw / 2)) / kw) 0) 1) *
      (min (max ((lvl - (thr - kw / 2)) / kw) 0) 1) * (lvl - thr) * (1 - 1 / rat)
  else hard_knee lvl thr rat

/-- C4 (confirmed): under the data-model constraint that knee widths are
nonnegative, the source's globally-switched (`knee_width_db.mean() > 0`) knee
blend coincides bin-by-bin with the spec's per-bin curve: soft quadratic blend
inside the knee window of a bin with positive knee width, hard knee outside the
window and for every zero-knee bin. -/
theorem C4_gain_curve_per_bin (m : ℕ) (lvl thr rat kw : ℕ → ℝ) (i : ℕ)
    (hk : ∀ j, j < m → 0 ≤ kw j) (hi : i < m) :
    compute_gain_reduction m lvl thr rat kw i =
      spec_gain_reduction (lvl i) (thr i) (rat i) (kw i) := by
  unfold compute_gain_reduction spec_gain_reduction
  by_cases hm : 0 < (∑ j ∈ Finset.range m, kw j) / (m : ℝ)
  · rw [if_pos hm]
    rcases lt_or_eq_of_le (hk i hi) with hki | hki
    · by_cases hwin : thr i - kw i / 2 ≤ lvl i ∧ lvl i ≤ thr i + kw i / 2
      · rw [if_pos hwin, if_pos ⟨hki, hwin⟩]
      · rw [if_neg hwin, if_neg (by intro hc; exact hwin hc.2)]
    · rw [← hki]
      by_cases hwin : thr i - (0:ℝ) / 2 ≤ lvl i ∧ lvl i ≤ thr i + (0:ℝ) / 2
      · rw [if_pos hwin, if_neg (by intro hc; exact lt_irrefl (0:ℝ) hc.1)]
        have hlv : lvl i = thr i :=
          le_antisymm (by simpa using hwin.2) (by simpa using hwin.1)
        rw [hlv]
        simp [hard_knee]
      · rw [if_neg hwin, if_neg (by intro hc; exact lt_irrefl (0:ℝ) hc.1)]
  · rw [if_neg hm]
    have hm0 : 0 < m := Nat.lt_of_le_of_lt (Nat.zero_le i) hi
    have h1 : 0 ≤ ∑ j ∈ Finset.range m, kw j :=
      Finset.sum_nonneg (fun j hj => hk j (Finset.mem_range.mp hj))
    have hmR : (0:ℝ) < (m : ℝ) := by exact_mod_cast hm0
    have h2 : (∑ j ∈ Finset.range m, kw j) / (m : ℝ) = 0 :=
      le_antisymm (not_lt.mp hm) (div_nonneg h1 (le_of_lt hmR))
    have hsum0 : (∑ j ∈ Finset.range m, kw j) = 0 := by
      rcases (div_eq_zero_iff).mp h2 with h | h
      · exact h
      · exact absurd h (ne_of_gt hmR)
    have hkw0 : kw i = 0 :=
      (Finset.sum_eq_zero_iff_of_nonneg
        (fun j hj => hk j (Finset.mem_range.mp hj))).mp hsum0 i (Finset.mem_range.mpr hi)
    rw [if_neg (by intro hc; rw [hkw0] at hc; exact lt_irrefl (0:ℝ) hc.1)]

/-- C4 witness: the per-bin equivalence applied at a concrete mixed-knee
configuration (two bins, knee widths 0 and 4) at bin 0 and level 1. -/
theorem C4_gain_curve_per_bin_witness :
    (∀ j, j < 2 → (0:ℝ) ≤ (fun j => if j = 0 then (0:ℝ) else 4) j) ∧ (0:ℕ) < 2 ∧
    compute_gain_reduction 2 (fun _ => 1) (fun _ => 0) (fun _ => 2)
        (fun j => if j = 0 then (0:ℝ) else 4) 0 =
      spec_gain_reduction 1 0 2 ((fun j => if j = 0 then (0:ℝ) else 4) 0) := by
  have hk : ∀ j, j < 2 → (0:ℝ) ≤ (fun j => if j = 0 then (0:ℝ) else 4) j := by
    intro j _
    by_cases h : j = 0 <;> simp [h]
  exact ⟨hk, by norm_num,
    C4_gain_curve_per_bin 2 (fun _ => 1) (fun _ => 0) (fun _ => 2)
      (fun j => if j = 0 then (0:ℝ) else 4) 0 hk (by norm_num)⟩

/-- Python `queue.Queue`: a FIFO with a `maxsize` (0 means infinite) and its item
list.  The source constructs `queue.Queue()`, i.e. maxsize 0. -/
structure PyQueue where
  maxsize : ℕ
  items : List (List ℝ)

/-- `Queue.put(x)` once it proceeds: appends to the tail. -/
def queue_put (q : PyQueue) (x : List ℝ) : PyQueue :=
  { q with items := q.items ++ [x] }

/-- Python `queue.Queue.put` (blocking mode) blocks exactly while the queue is
full, and `full()` holds iff `0 < maxsize ≤ qsize()`. -/
def queue_put_blocks (q : PyQueue) : Bool :=
  decide (0 < q.maxsize) && decide (q.maxsize ≤ q.items.length)

/-- lpmd_audio_features.py lines 24-33, `LPMDAudioEngine` attributes.  The block
processor installed by `set_processor` is a Python callable that may raise, so it
is embedded as `List ℝ → Except PyError (List ℝ)`. -/
structure AudioEngine where
  sample_rate : ℚ
  block_size : ℕ
  audio_queue : PyQueue
  is_streaming : Bool
  current_processor : Option (List ℝ → Except PyError (List ℝ))
  test_audio : List ℝ

/-- lpmd_audio_features.py lines 35-44, `_generate_test_audio`:
`t = np.linspace(0, 2, int(2*sample_rate))` and a three-sine mix. -/
noncomputable def generate_test_audio (sr : ℚ) : List ℝ :=
  let n := (int_trunc (2 * sr)).toNat
  (List.range n).map (fun i =>
    let t : ℝ := (i : ℝ) * 2 / ((n : ℝ) - 1)
    0.5 * Real.sin (2 * Real.pi * 200 * t) +
      0.3 * Real.sin (2 * Real.pi * 2000 * t) +
      0.2 * Real.sin (2 * Real.pi * 8000 * t))

/-- lpmd_audio_features.py lines 27-33, `LPMDAudioEngine.__init__`:
unbounded `queue.Queue()`, not streaming, no processor. -/
noncomputable def engine_init (sr : ℚ) (bs : ℕ) : AudioEngine :=
  { sample_rate := sr
    block_size := bs
    audio_queue := ⟨0, []⟩
    is_streaming := false
    current_processor := none
    test_audio := generate_test_audio sr }

/-- lpmd_audio_features.py lines 46-54, `start_audio_stream`: if not already
streaming, set the flag and launch the `_simulate_streaming` thread (the thread
itself is modelled by `run_stream`). -/
def start_audio_stream (eng : AudioEngine) : AudioEngine :=
  if eng.is_streaming then eng else { eng with is_streaming := true }

/-- lpmd_audio_features.py lines 88-91, `set_processor`. -/
def set_processor (eng : AudioEngine)
    (p : Option (List ℝ → Except PyError (List ℝ))) : AudioEngine :=
  { eng with current_processor := p }

/-- One iteration of the `while self.is_streaming` body of `_simulate_streaming`
(lpmd_audio_features.py lines 56-79): slice the next chunk out of `test_audio`
(wrapping to the start when the tail is short), run it through the installed
processor if any, and put the result on `audio_queue`.  `cp.2` is the updated
local `pos`.  A processor exception propagates out (there is no try/except in the
loop), leaving every engine attribute, `is_streaming` included, as it was. -/
def stream_iter (eng : AudioEngine) (pos : ℕ) :
    Except PyError (AudioEngine × ℕ) :=
  let chunk := (eng.test_audio.drop pos).take eng.block_size
  let cp : List ℝ × ℕ :=
    if chunk.length < eng.block_size then
      (chunk ++ eng.test_audio.take (eng.block_size - chunk.length),
        eng.block_size - chunk.length)
    else (chunk, pos + eng.block_size)
  match eng.current_processor with
  | some p =>
    match p cp.1 with
    | Except.error e => Except.error e
    | Except.ok c =>
      Except.ok ({ eng with audio_queue := queue_put eng.audio_queue c }, cp.2)
  | none =>
    Except.ok ({ eng with audio_queue := queue_put eng.audio_queue cp.1 }, cp.2)

/-- The `_simulate_streaming` thread, fuel-bounded: loops while `is_streaming`.
The `time.sleep(block_size / sample_rate)` between iterations only paces real
time and is not otherwise observable.  The second component reports an exception
that escaped the loop (killing the thread); no engine attribute is touched on
that path. -/
def run_stream : ℕ → AudioEngine → ℕ → AudioEngine × Option PyError
  | 0, eng, _ => (eng, none)
  | fuel + 1, eng, pos =>
    if eng.is_streaming then
      match stream_iter eng pos with
      | Except.error e => (eng, some e)
      | Except.ok s => run_stream fuel s.1 s.2
    else (eng, none)

/-- A started engine whose installed processor raises on every chunk. -/
noncomputable def failing_engine : AudioEngine :=
  start_audio_stream
    (set_processor (engine_init 44100 4096)
      (some (fun _ => Except.error PyError.processorError)))

/-- C7: the spec demands that a processor exception inside the producer loop be
surfaced — recorded, with the loop exiting to Idle — but in the source the loop
body has no handler: the exception escapes `_simulate_streaming`, the daemon
thread dies, nothing is recorded, and `is_streaming` is still True, so the
harness keeps reporting itself as streaming. -/
theorem C7_uncaught_exception :
    run_stream 3 failing_engine 0 = (failing_engine, some PyError.processorError) ∧
    failing_engine.is_streaming = true := by
  constructor
  · rfl
  · rfl

/-- The engine as driven by the producer with no installed processor and no
consumer: `start_audio_stream` on a fresh `LPMDAudioEngine(44100, 4096)`. -/
noncomputable def started_engine : AudioEngine :=
  start_audio_stream (engine_init 44100 4096)

/-- The producer state (engine, loop-local `pos`) after `k` successful loop
iterations with nobody draining the queue. -/
noncomputable def producer_state : ℕ → AudioEngine × ℕ
  | 0 => (started_engine, 0)
  | k + 1 =>
    match stream_iter (producer_state k).1 (producer_state k).2 with
    | Except.ok s => s
    | Except.error _ => producer_state k

theorem stream_iter_none (eng : AudioEngine) (pos : ℕ)
    (h : eng.current_processor = none) :
    ∃ c p', stream_iter eng pos =
      Except.ok ({ eng with audio_queue := queue_put eng.audio_queue c }, p') := by
  unfold stream_iter
  simp only [h]
  exact ⟨_, _, rfl⟩

theorem producer_state_invariant (k : ℕ) :
    (producer_state k).1.current_processor = none ∧
    (producer_state k).1.audio_queue.maxsize = 0 ∧
    (producer_state k).1.audio_queue.items.length = k := by
  induction k with
  | zero => exact ⟨rfl, rfl, rfl⟩
  | succ k ih =>
    obtain ⟨hp, hm, hl⟩ := ih
    obtain ⟨c, p', hstep⟩ := stream_iter_none (producer_state k).1 (producer_state k).2 hp
    have hnext : producer_state (k + 1) =
        ({ (producer_state k).1 with
            audio_queue := queue_put (producer_state k).1.audio_queue c }, p') := by
      show (match stream_iter (producer_state k).1 (producer_state k).2 with
        | Except.ok s => s
        | Except.error _ => producer_state k) = _
      rw [hstep]
    rw [hnext]
    refine ⟨hp, hm, ?_⟩
    simp [queue_put, hl]

/-- C8 counterexample: the claim says the queue the producer publishes to is
bounded — its length never exceeding some fixed capacity — but with no consumer
the queue after `k` produced blocks holds exactly `k` items, so no capacity bounds
every reachable state; moreover the queue is constructed with maxsize 0. -/
theorem C8_counterexample :
    (¬ ∃ cap : ℕ, ∀ k : ℕ, (producer_state k).1.audio_queue.items.length ≤ cap) ∧
    started_engine.audio_queue.maxsize = 0 := by
  constructor
  · rintro ⟨cap, hcap⟩
    have h := hcap (cap + 1)
    rw [(producer_state_invariant (cap + 1)).2.2] at h
    omega
  · rfl

/-- C8 (corrected): the queue is UNBOUNDED — `queue.Queue()` with maxsize 0 — so a
put never blocks (Python's put blocks only when `0 < maxsize ≤ qsize`), and with a
slow (absent) consumer its length after `k` produced blocks is exactly `k`,
growing without bound: production is never stalled and there is no backpressure. -/
theorem C8_unbounded_queue (k : ℕ) :
    (producer_state k).1.audio_queue.items.length = k ∧
    queue_put_blocks (producer_state k).1.audio_queue = false ∧
    (producer_state k).1.audio_queue.maxsize = 0 := by
  obtain ⟨hp, hm, hl⟩ := producer_state_invariant k
  refine ⟨hl, ?_, hm⟩
  simp [queue_put_blocks, hm]

/-- A torch tensor of shape (batch, channels, time): recorded dimensions plus a
total value function (indices outside the dimensions are junk). -/
structure Block where
  batch : ℕ
  channels : ℕ
  time : ℕ
  val : ℕ → ℕ → ℕ → ℝ

/-- The per-(batch, channel, bin) envelope tensor `self.envelope`
(multiband_compressor.py line 130), with its allocated shape. -/
structure EnvState where
  batch : ℕ
  channels : ℕ
  val : ℕ → ℕ → ℕ → ℝ

/-- multiband_compressor.py lines 128-130: `if self.envelope is None or
self.envelope.shape[0] != batch_size or self.envelope.shape[1] != num_channels:
self.envelope = torch.zeros(batch_size, num_channels, self.num_bands)`.
The freshly allocated envelope is ALL ZEROS — a linear gain of 0 in every slot. -/
def env_for_shape (env : Option EnvState) (b c : ℕ) : EnvState :=
  match env with
  | none => ⟨b, c, fun _ _ _ => 0⟩
  | some e => if e.batch ≠ b ∨ e.channels ≠ c then ⟨b, c, fun _ _ _ => 0⟩ else e

/-- multiband_compressor.py line 121: `(hop_size - time_length % hop_size) % hop_size`. -/
def pad_length (hop t : ℕ) : ℕ := (hop - t % hop) % hop

/-- Number of elements of Python `range(0, stop, step)` for positive `step`,
namely ⌈stop/step⌉. -/
def py_range_count (stop step : ℕ) : ℕ := (stop + step - 1) / step

/-- multiband_compressor.py line 133: the frame start offsets
`range(0, padded_length - fft_size + 1, hop_size)` — empty when the padded
signal is shorter than one analysis frame. -/
def frame_starts (padded fft hop : ℕ) : List ℕ :=
  if padded + 1 ≤ fft then []
  else (List.range (py_range_count (padded - fft + 1) hop)).map (· * hop)

/-- multiband_compressor.py line 39: `torch.hann_window(fft_size)` (periodic),
`w[n] = 0.5 * (1 - cos(2πn/N))`. -/
noncomputable def hann_window (N n : ℕ) : ℝ :=
  1 / 2 * (1 - Real.cos (2 * Real.pi * (n : ℝ) / (N : ℝ)))

/-- The live per-bin parameter state of a `MultiBandCompressor` as `forward` reads
it: scalar config plus the (mutable, possibly per-bin overridden) parameter
tensors and the attack/release coefficients computed in `__init__`. -/
structure MBCState where
  sample_rate : ℚ
  fft_size : ℕ
  hop_size : ℕ
  threshold_db : ℕ → ℝ
  ratio : ℕ → ℝ
  makeup_gain_db : ℕ → ℝ
  knee_width_db : ℕ → ℝ
  attack_coeff : ℝ
  release_coeff : ℝ

/-- multiband_compressor.py line 36: `num_bands = fft_size // 2 + 1`. -/
def num_bands (cfg : MBCState) : ℕ := cfg.fft_size / 2 + 1

/-- `torch.fft.rfft` bin `k` of the length-`N` signal `x`:
`∑_{n<N} x[n] · e^(-2πi·k·n/N)`. -/
noncomputable def rfft_at (N : ℕ) (x : ℕ → ℝ) (k : ℕ) : ℂ :=
  ∑ n ∈ Finset.range N,
    (x n : ℂ) * Complex.exp (-(((2 * Real.pi * (k : ℝ) * (n : ℝ) / (N : ℝ)) : ℝ) : ℂ) * Complex.I)

/-- `torch.fft.irfft` sample `n` from the one-sided spectrum `X` (bins 0..N/2):
the inverse transform of the Hermitian extension of `X`, real part taken (torch
returns a real tensor). -/
noncomputable def irfft_at (N : ℕ) (X : ℕ → ℂ) (n : ℕ) : ℝ :=
  ((1 / (N : ℂ)) * ∑ k ∈ Finset.range N,
    (if k ≤ N / 2 then X k else (starRingEnd ℂ) (X (N - k))) *
      Complex.exp ((((2 * Real.pi * (k : ℝ) * (n : ℝ) / (N : ℝ)) : ℝ) : ℂ) * Complex.I)).re

/-- One iteration of the frame loop of `forward` (multiband_compressor.py lines
133-171) on the running (output accumulator, envelope) state: window the frame at
`start`, rfft, magnitude→dB, `_compute_gain_reduction`, `_apply_attack_release`
(mutating the envelope), subtract the smoothed reduction, add makeup gain, back
to linear, recombine with the original phase (`torch.angle`), irfft, and
overlap-add the re-windowed frame into the output at `start`. -/
noncomputable def process_frame (cfg : MBCState) (xp : ℕ → ℕ → ℕ → ℝ)
    (st : (ℕ → ℕ → ℕ → ℝ) × EnvState) (start : ℕ) : (ℕ → ℕ → ℕ → ℝ) × EnvState :=
  let N := cfg.fft_size
  let window_frame : ℕ → ℕ → ℕ → ℝ := fun b c n => xp b c (start + n) * hann_window N n
  let fft : ℕ → ℕ → ℕ → ℂ := fun b c k => rfft_at N (window_frame b c) k
  let magnitude_db : ℕ → ℕ → ℕ → ℝ := fun b c k => linear_to_db (Complex.abs (fft b c k))
  let gain_reduction_db : ℕ → ℕ → ℕ → ℝ := fun b c k =>
    compute_gain_reduction (num_bands cfg) (magnitude_db b c)
      cfg.threshold_db cfg.ratio cfg.knee_width_db k
  let env_step : ℕ → ℕ → ℕ → ℝ × ℝ := fun b c k =>
    apply_attack_release cfg.attack_coeff cfg.release_coeff
      (gain_reduction_db b c k) (st.2.val b c k)
  let compressed_db : ℕ → ℕ → ℕ → ℝ := fun b c k =>
    magnitude_db b c k - (env_step b c k).1 + cfg.makeup_gain_db k
  let compressed_fft : ℕ → ℕ → ℕ → ℂ := fun b c k =>
    (db_to_linear (compressed_db b c k) : ℂ) *
      Complex.exp (Complex.I * ((Complex.arg (fft b c k) : ℝ) : ℂ))
  let compressed : ℕ → ℕ → ℕ → ℝ := fun b c n => irfft_at N (compressed_fft b c) n
  (fun b c n => st.1 b c n +
      (if start ≤ n ∧ n < start + N then
        compressed b c (n - start) * hann_window N (n - start) else 0),
   ⟨st.2.batch, st.2.channels, fun b c k => (env_step b c k).2⟩)

/-- multiband_compressor.py lines 115-177, `MultiBandCompressor.forward`: zero-pad
the time axis to a multiple of hop, (re)allocate the envelope if the
batch/channel shape changed, run the overlapping frame loop (which also mutates
the envelope), and truncate the padding.  Returns the output block and the
envelope left behind in `self.envelope`. -/
noncomputable def forward (cfg : MBCState) (env : Option EnvState) (x : Block) :
    Block × EnvState :=
  let pad := pad_length cfg.hop_size x.time
  let padded := x.time + pad
  let xp : ℕ → ℕ → ℕ → ℝ := fun b c n => if n < x.time then x.val b c n else 0
  let env0 := env_for_shape env x.batch x.channels
  let res := (frame_starts padded cfg.fft_size cfg.hop_size).foldl
    (process_frame cfg xp) (fun _ _ _ => (0 : ℝ), env0)
  (⟨x.batch, x.channels, if 0 < pad then padded - pad else padded, res.1⟩, res.2)

theorem hann_window_zero (N : ℕ) : hann_window N 0 = 0 := by
  simp [hann_window]

/-- C2 counterexample: the claim says a (re)allocated envelope starts at zero
gain-reduction, i.e. linear gain 1 in every slot; but the envelope freshly
allocated on a first call is `torch.zeros`, so slot (0,0,0) holds 0, not 1. -/
theorem C2_counterexample :
    (env_for_shape none 1 1).val 0 0 0 = 0 ∧ (env_for_shape none 1 1).val 0 0 0 ≠ 1 := by
  constructor
  · rfl
  · intro h
    rw [show (env_for_shape none 1 1).val 0 0 0 = 0 from rfl] at h
    exact zero_ne_one h

/-- C2 (corrected): `forward` re-allocates the envelope exactly on the first call
or when the observed batch/channel counts change, and the re-allocated envelope
is ALL-ZERO linear gain (`torch.zeros` — a full-attenuation smoothing target),
not the unit gain (zero gain-reduction) the claim states; consecutive calls with
matching shape keep the previous envelope untouched. -/
theorem C2_envelope_reset (b c : ℕ) :
    env_for_shape none b c = ⟨b, c, fun _ _ _ => 0⟩ ∧
    (∀ e : EnvState, e.batch ≠ b ∨ e.channels ≠ c →
      env_for_shape (some e) b c = ⟨b, c, fun _ _ _ => 0⟩) ∧
    (∀ e : EnvState, e.batch = b → e.channels = c → env_for_shape (some e) b c = e) := by
  refine ⟨rfl, ?_, ?_⟩
  · intro e h
    show (if e.batch ≠ b ∨ e.channels ≠ c then (⟨b, c, fun _ _ _ => 0⟩ : EnvState) else e) =
      ⟨b, c, fun _ _ _ => 0⟩
    rw [if_pos h]
  · intro e h1 h2
    show (if e.batch ≠ b ∨ e.channels ≠ c then (⟨b, c, fun _ _ _ => 0⟩ : EnvState) else e) = e
    rw [if_neg (by simp [h1, h2])]

/-- C2 witness: a (1,1)-shaped envelope followed by a (2,1) call is reset to the
all-zero envelope. -/
theorem C2_envelope_reset_witness :
    ((⟨1, 1, fun _ _ _ => 5⟩ : EnvState).batch ≠ 2 ∨
      (⟨1, 1, fun _ _ _ => 5⟩ : EnvState).channels ≠ 1) ∧
    env_for_shape (some ⟨1, 1, fun _ _ _ => 5⟩) 2 1 = ⟨2, 1, fun _ _ _ => 0⟩ := by
  have h : (⟨1, 1, fun _ _ _ => 5⟩ : EnvState).batch ≠ 2 ∨
      (⟨1, 1, fun _ _ _ => 5⟩ : EnvState).channels ≠ 1 := Or.inl (by norm_num)
  exact ⟨h, (C2_envelope_reset 2 1).2.1 ⟨1, 1, fun _ _ _ => 5⟩ h⟩

/-- C3 (confirmed): for every input block and positive hop size, `forward` returns
a block of the identical (batch, channels, time) shape — it pads internally by
`(hop - time mod hop) mod hop` and truncates that padding before returning. -/
theorem C3_shape_preservation (cfg : MBCState) (env : Option EnvState) (x : Block)
    (hhop : 0 < cfg.hop_size) :
    (forward cfg env x).1.batch = x.batch ∧
    (forward cfg env x).1.channels = x.channels ∧
    (forward cfg env x).1.time = x.time ∧
    pad_length cfg.hop_size x.time =
      (cfg.hop_size - x.time % cfg.hop_size) % cfg.hop_size := by
  refine ⟨rfl, rfl, ?_, rfl⟩
  simp only [forward]
  split <;> omega

/-- A compressor state with the constructor defaults of multiband_compressor.py
lines 14-23 (threshold -20 dB, ratio 4, attack 10 ms, release 100 ms, makeup 0,
knee 0) at sample rate 44100, fft 4096, hop 1024. -/
noncomputable def cfg_default : MBCState :=
  { sample_rate := 44100
    fft_size := 4096
    hop_size := 1024
    threshold_db := fun _ => -20
    ratio := fun _ => 4
    makeup_gain_db := fun _ => 0
    knee_width_db := fun _ => 0
    attack_coeff := ar_coeff (time_ms_to_samples 10 44100)
    release_coeff := ar_coeff (time_ms_to_samples 100 44100) }

/-- A (2, 1, 13000) all-ones block — a time length that is not a hop multiple. -/
noncomputable def block_2_1_13000 : Block := ⟨2, 1, 13000, fun _ _ _ => 1⟩

/-- C3 witness: shape preservation at the concrete block shape (2, 1, 13000). -/
theorem C3_shape_preservation_witness :
    0 < cfg_default.hop_size ∧
    ((forward cfg_default none block_2_1_13000).1.batch = 2 ∧
     (forward cfg_default none block_2_1_13000).1.channels = 1 ∧
     (forward cfg_default none block_2_1_13000).1.time = 13000) := by
  have hhop : 0 < cfg_default.hop_size := by norm_num [cfg_default]
  have h := C3_shape_preservation cfg_default none block_2_1_13000 hhop
  exact ⟨hhop, h.1, h.2.1, h.2.2.1⟩

/-- C10 (confirmed): when the zero-padded length `time + (hop - time mod hop) mod hop`
is strictly below the analysis size, the frame loop of `forward` executes no frames:
the output is the all-zero block of the input's shape (the input samples are
discarded), and the envelope is exactly the post-(re)allocation, pre-loop state —
untouched by the frame loop. -/
theorem C10_short_block (cfg : MBCState) (env : Option EnvState) (x : Block)
    (hhop : 0 < cfg.hop_size) (ht : 0 < x.time)
    (hshort : x.time + pad_length cfg.hop_size x.time < cfg.fft_size) :
    (∀ b c n, (forward cfg env x).1.val b c n = 0) ∧
    (forward cfg env x).1.time = x.time ∧
    (forward cfg env x).1.batch = x.batch ∧
    (forward cfg env x).1.channels = x.channels ∧
    (forward cfg env x).2 = env_for_shape env x.batch x.channels := by
  have hempty : frame_starts (x.time + pad_length cfg.hop_size x.time)
      cfg.fft_size cfg.hop_size = [] := by
    unfold frame_starts
    rw [if_pos (by omega)]
  refine ⟨?_, ?_, rfl, rfl, ?_⟩
  · intro b c n
    simp only [forward]
    rw [hempty]
    rfl
  · simp only [forward]
    split <;> omega
  · simp only [forward]
    rw [hempty]
    rfl

/-- A (1, 1, 1000) all-ones block: padded length 1024 < 4096. -/
noncomputable def block_1_1_1000 : Block := ⟨1, 1, 1000, fun _ _ _ => 1⟩

/-- C10 witness: a 1000-sample block on the default configuration pads to 1024,
runs zero frames and comes back all-zero at the input's shape. -/
theorem C10_short_block_witness :
    0 < cfg_default.hop_size ∧ 0 < block_1_1_1000.time ∧
    block_1_1_1000.time + pad_length cfg_default.hop_size block_1_1_1000.time <
      cfg_default.fft_size ∧
    (forward cfg_default none block_1_1_1000).1.val 0 0 123 = 0 ∧
    (forward cfg_default none block_1_1_1000).1.time = 1000 := by
  have h1 : 0 < cfg_default.hop_size := by norm_num [cfg_default]
  have h2 : 0 < block_1_1_1000.time := by norm_num [block_1_1_1000]
  have h3 : block_1_1_1000.time + pad_length cfg_default.hop_size block_1_1_1000.time <
      cfg_default.fft_size := by
    norm_num [cfg_default, block_1_1_1000, pad_length]
  have h := C10_short_block cfg_default none block_1_1_1000 h1 h2 h3
  exact ⟨h1, h2, h3, h.1 0 0 123, h.2.1⟩

/-- The configuration of claim C1: ratio 1 on every bin, makeup gain 0, all other
parameters at their constructor defaults. -/
noncomputable def cfg_ratio_one : MBCState :=
  { sample_rate := 44100
    fft_size := 4096
    hop_size := 1024
    threshold_db := fun _ => -20
    ratio := fun _ => 1
    makeup_gain_db := fun _ => 0
    knee_width_db := fun _ => 0
    attack_coeff := ar_coeff (time_ms_to_samples 10 44100)
    release_coeff := ar_coeff (time_ms_to_samples 100 44100) }

/-- A (1, 1, 4096) all-ones block: exactly one analysis frame, no padding. -/
noncomputable def ones_4096 : Block := ⟨1, 1, 4096, fun _ _ _ => 1⟩

/-- C1: with ratio 1 for every bin and makeup 0, `forward` does NOT reproduce the
input: on the all-ones (1,1,4096) block the output's first sample is exactly 0
while the input's is 1 — the periodic Hann window vanishes at index 0 and is
applied both before the FFT and after the inverse FFT with no overlap-add
normalization (and the envelope starts from all-zero linear gain), so the
round trip is not transparent. -/
theorem C1_reconstruction_identity_fails :
    (forward cfg_ratio_one none ones_4096).1.val 0 0 0 = 0 ∧ ones_4096.val 0 0 0 = 1 := by
  constructor
  · have hstarts : frame_starts (ones_4096.time + pad_length cfg_ratio_one.hop_size
        ones_4096.time) cfg_ratio_one.fft_size cfg_ratio_one.hop_size = [0] := by rfl
    simp only [forward]
    rw [hstarts]
    simp only [List.foldl_cons, List.foldl_nil, process_frame]
    norm_num [hann_window_zero, cfg_ratio_one]
  · rfl
